import Mathlib

/-!
Verification of the Windows LLM bridge stub
(`src/tauri-plugin-llm/windows/windows_llm_bridge.cpp`).

The bridge exports three C functions:

* `windows_llm_check_availability` — returns the availability wire code
  (the stub unconditionally returns `3`, "not supported");
* `windows_llm_generate` — returns an owned result buffer or the null
  sentinel (the stub unconditionally returns `nullptr`);
* `windows_llm_free_string` — frees a non-null buffer with `free`
  (the malloc family) and is a no-op on null.

Shallow embedding choices: a C string pointer is `Option (List Char)`
(`none` is NULL, `some cs` is a NUL-terminated string whose content before
the terminator is `cs`); the C `float` temperature is embedded as `Rat`
(the stub never inspects it); the C `int` maxTokens is `Int`.  Heap state
is passed explicitly: `windows_llm_free_string` acts on a `Heap` of live
blocks tagged with the allocator that produced them, and returns `none`
when the C call would be undefined behavior (freeing a pointer that is not
a live malloc-family block).
-/

/-- The allocator family a heap block was obtained from. `free` in the C
source deallocates with the malloc family. -/
inductive Allocator where
  | mallocFamily
  | other
deriving DecidableEq

/-- Addresses of heap blocks. -/
abbrev Ptr := Nat

/-- The live heap blocks, each tagged with the allocator that produced it. -/
structure Heap where
  blocks : List (Ptr × Allocator)
deriving DecidableEq

/-- Deallocate `p` with allocator `a`: defined (returns the shrunk heap)
exactly when `p` is a live block that was produced by `a`; otherwise the
operation is undefined behavior, modelled as `none`. -/
def Heap.free (h : Heap) (p : Ptr) (a : Allocator) : Option Heap :=
  match h.blocks.lookup p with
  | some b => if b = a then some ⟨h.blocks.filter (fun x => x.1 != p)⟩ else none
  | none => none

/-- Embedding of `windows_llm_check_availability`: the stub body is
`return 3;` (3 = not supported, since the WinRT AI SDK is absent at
compile time). -/
def windows_llm_check_availability : Int := 3

/-- Embedding of `windows_llm_generate(const char* prompt, float temperature,
int maxTokens)`: the stub body is `return nullptr;` — it reads none of its
arguments and allocates nothing. -/
def windows_llm_generate (prompt : Option (List Char)) (temperature : Rat)
    (maxTokens : Int) : Option Ptr :=
  none

/-- Embedding of `windows_llm_free_string(char* ptr)`: the body is
`if (ptr) { free(ptr); }` — a no-op on NULL, otherwise a malloc-family
deallocation of `ptr`. -/
def windows_llm_free_string (h : Heap) (ptr : Option Ptr) : Option Heap :=
  match ptr with
  | none => some h
  | some p => h.free p Allocator.mallocFamily

/-- The four availability states of the wire contract. -/
inductive AvailabilityState where
  | Ready
  | NotReady
  | Disabled
  | Unsupported
deriving DecidableEq

/-- Modelled from the spec: the frozen wire numbering of availability
states (0=Ready, 1=NotReady, 2=Disabled, 3=Unsupported).  Only the code
`3` appears in the stub source (its comment reads `3 = Not supported`);
the other three codes live in the host-side plugin, which is not part of
this source tree. -/
def availabilityCode : AvailabilityState → Int
  | .Ready => 0
  | .NotReady => 1
  | .Disabled => 2
  | .Unsupported => 3

/-- Modelled from the spec: the opaque Capability Backend together with
the generation path taken when the WinRT AI SDK is present — this path is
missing from the stub source, which is compiled without the SDK.  `avail`
is the backend state as classified by the availability probe (wire code),
`complete` is the opaque inference call (`none` on model error, timeout,
cancellation or resource exhaustion), `bound` is the length bound that a
given `maxTokens` imposes, and `clamp_ok` records that the backend (not
the bridge) enforces that clamp on every successful completion. -/
structure Backend where
  avail : Int
  complete : List Char → Rat → Int → Option (List Char)
  bound : Int → Nat
  clamp_ok : ∀ p t m out, complete p t m = some out → out.length ≤ bound m

/-- Modelled from the spec: the Generation Invoker over a present
Capability Backend — if the internal availability re-check is not Ready it
returns the null sentinel; otherwise it forwards the request to the
backend and returns the complete output (copied whole into a fresh
buffer), or the sentinel on backend failure. -/
def generate_model (b : Backend) (prompt : List Char) (t : Rat) (m : Int) :
    Option (List Char) :=
  if b.avail = 0 then b.complete prompt t m else none

/-- The three entry points as operations of one execution trace. -/
inductive Op where
  | check
  | gen (prompt : Option (List Char)) (t : Rat) (m : Int)
  | free (ptr : Option Ptr)

/-- Values returned across the C boundary. -/
inductive Ret where
  | int (n : Int)
  | buf (p : Option Ptr)
  | unit
deriving DecidableEq

/-- One call of an entry point on the current heap: the new heap and the
returned value, or `none` when the call is undefined behavior. -/
def step (h : Heap) : Op → Option (Heap × Ret)
  | .check => some (h, .int windows_llm_check_availability)
  | .gen p t m => some (h, .buf (windows_llm_generate p t m))
  | .free ptr => (windows_llm_free_string h ptr).map (fun h2 => (h2, .unit))

/-- The returned value of a call, when the call is defined. -/
def retOf (o : Option (Heap × Ret)) : Option Ret :=
  o.map Prod.snd

/-- Concrete backends used to instantiate the spec-modelled theorems: one
that succeeds by echoing a clamped prefix of the prompt, and one that
always fails. -/
def backendEcho : Backend :=
  ⟨0, fun p _ m => some (p.take m.toNat), Int.toNat,
    fun p _t m out h => by
      injection h with h2
      subst h2
      simp⟩

def backendFailing : Backend :=
  ⟨0, fun _ _ _ => none, Int.toNat, fun p t m out h => by simp at h⟩

/-- Claim C1: every non-null buffer the generate entry point can return
was produced by the malloc-family allocator that the release entry point
frees with, so freeing any such buffer through the releaser is
well-defined. -/
theorem generate_allocator_symmetry (h : Heap) (p : Option (List Char))
    (t : Rat) (m : Int) :
    Option.all (fun q => (windows_llm_free_string h (some q)).isSome)
      (windows_llm_generate p t m) = true :=
  rfl

/-- Claim C2: whenever the availability probe reports anything other than
Ready (code 0), a generate call with a well-formed request (non-null
prompt, positive maxTokens) returns the null sentinel and does not
crash. -/
theorem generate_degrades_when_not_ready (p : List Char) (t : Rat) (m : Int)
    (hav : windows_llm_check_availability ≠ 0) (hm : 0 < m) :
    windows_llm_generate (some p) t m = none :=
  rfl

/-- Witness for C2 at prompt "hi", temperature 7/10, maxTokens 256. -/
theorem generate_degrades_when_not_ready_witness :
    windows_llm_generate (some ['h', 'i']) (7 / 10) 256 = none :=
  generate_degrades_when_not_ready ['h', 'i'] (7 / 10) 256 (by decide)
    (by decide)

/-- Claim C3: the stub is unconditionally unsupported — the probe returns
exactly 3 on every call and generate returns the null sentinel on every
input; no input reaches an available or success path. -/
theorem stub_unconditionally_unsupported :
    windows_llm_check_availability = 3 ∧
      ∀ p t m, windows_llm_generate p t m = none :=
  ⟨rfl, fun _ _ _ => rfl⟩

/-- Claim C4: the availability probe returns a value in the closed set
containing 0, 1, 2 and 3, never any other integer. -/
theorem check_availability_in_wire_set :
    windows_llm_check_availability = 0 ∨ windows_llm_check_availability = 1 ∨
      windows_llm_check_availability = 2 ∨
      windows_llm_check_availability = 3 := by
  decide

/-- Claim C5: for every well-formed request made while the backend is
Ready and on which the backend succeeds, generation returns a non-null,
null-terminated buffer whose content length does not exceed the bound
that maxTokens imposes. -/
theorem generate_success_bounded (b : Backend) (p : List Char) (t : Rat)
    (m : Int) (out : List Char) (hready : b.avail = 0) (hm : 0 < m)
    (hsucc : b.complete p t m = some out) :
    ∃ r, generate_model b p t m = some r ∧ r.length ≤ b.bound m := by
  refine ⟨out, ?_, b.clamp_ok p t m out hsucc⟩
  simp [generate_model, hready, hsucc]

/-- Witness for C5: the echoing backend at prompt "hi", maxTokens 16. -/
theorem generate_success_bounded_witness :
    ∃ r, generate_model backendEcho ['h', 'i'] (7 / 10) 16 = some r ∧
      r.length ≤ backendEcho.bound 16 :=
  generate_success_bounded backendEcho ['h', 'i'] (7 / 10) 16 ['h', 'i']
    rfl (by decide) rfl

/-- Claim C6: on every request on which the backend fails or is absent,
generation returns exactly the null sentinel — never a partial non-null
buffer — and nothing is thrown across the boundary: the spec-modelled
invoker maps backend failure to the sentinel, and the stub (whose backend
is absent) returns the sentinel on every input. -/
theorem generate_failure_is_sentinel (b : Backend) (p : List Char) (t : Rat)
    (m : Int) (hfail : b.complete p t m = none) :
    generate_model b p t m = none ∧
      windows_llm_generate (some p) t m = none := by
  refine ⟨?_, rfl⟩
  by_cases hav : b.avail = 0 <;> simp [generate_model, hav, hfail]

/-- Witness for C6: the always-failing backend at prompt "hi". -/
theorem generate_failure_is_sentinel_witness :
    generate_model backendFailing ['h', 'i'] (7 / 10) 5 = none ∧
      windows_llm_generate (some ['h', 'i']) (7 / 10) 5 = none :=
  generate_failure_is_sentinel backendFailing ['h', 'i'] (7 / 10) 5 rfl

/-- Claim C7: releasing the null buffer is a no-op that never faults — the
heap is returned unchanged and the call is defined, so callers may invoke
the releaser unconditionally. -/
theorem free_string_null_noop (h : Heap) :
    windows_llm_free_string h none = some h :=
  rfl

/-- Claim C8: the probe maps availability states to the frozen wire codes
0=Ready, 1=NotReady, 2=Disabled, 3=Unsupported, and when no capability
exists (the check itself cannot be performed, as in this stub) it returns
the code of Unsupported rather than failing. -/
theorem check_availability_wire_codes :
    availabilityCode .Ready = 0 ∧ availabilityCode .NotReady = 1 ∧
      availabilityCode .Disabled = 2 ∧ availabilityCode .Unsupported = 3 ∧
      windows_llm_check_availability = availabilityCode .Unsupported :=
  ⟨rfl, rfl, rfl, rfl, rfl⟩

/-- Claim C9: generate is total and never dereferences its prompt — its
result is independent of the prompt argument, and every input, including
a null prompt, non-positive maxTokens and out-of-range temperature,
yields the null sentinel without faulting. -/
theorem generate_total_never_dereferences :
    (∀ p1 p2 t m, windows_llm_generate p1 t m = windows_llm_generate p2 t m) ∧
      ∀ p t m, windows_llm_generate p t m = none :=
  ⟨fun _ _ _ _ => rfl, fun _ _ _ => rfl⟩

/-- Claim C10: the three entry points are deterministic and stateless —
any defined call of an operation returns a value determined by its own
arguments alone, identical across any two heaps (hence unaffected by
earlier calls), and the probe and generate calls leave the heap untouched
and ignore it entirely. -/
theorem entry_points_stateless (h h2 : Heap) (op : Op) :
    (∀ r r2, retOf (step h op) = some r → retOf (step h2 op) = some r2 →
        r = r2) ∧
      step h .check = some (h, .int 3) ∧
      ∀ p t m, step h (.gen p t m) = some (h, .buf none) := by
  refine ⟨?_, rfl, fun _ _ _ => rfl⟩
  intro r r2 hr hr2
  cases op with
  | check =>
      simp [step, retOf] at hr hr2
      rw [← hr, ← hr2]
  | gen p t m =>
      simp [step, retOf] at hr hr2
      rw [← hr, ← hr2]
  | free ptr =>
      simp only [step, retOf, Option.map_map] at hr hr2
      cases hfs : windows_llm_free_string h ptr with
      | none => rw [hfs] at hr; simp at hr
      | some hh =>
          cases hfs2 : windows_llm_free_string h2 ptr with
          | none => rw [hfs2] at hr2; simp at hr2
          | some hh2 =>
              rw [hfs] at hr
              rw [hfs2] at hr2
              simp at hr hr2
              rw [← hr, ← hr2]

/-- Witness for C10: instantiated at two distinct concrete heaps and the
probe operation. -/
theorem entry_points_stateless_witness : Ret.int 3 = Ret.int 3 :=
  (entry_points_stateless ⟨[]⟩ ⟨[(5, Allocator.mallocFamily)]⟩ .check).1
    (.int 3) (.int 3) rfl rfl
